import Mathlib

/-!
Shallow embedding of the RAG core of `app/services/rag_service.py`
(medlink_backend): intent detection, conversation-history context,
retrieval filtering, medication fallback, answer generation and
confidence parsing, together with proofs of the specification's claims.

Strings are modelled as Lean `String`/`List Char`; Python float scores
are modelled as `ℚ`; regular expressions of the source are hand-translated
into executable character-list matchers; calls to the external vector
store and language model are modelled by an environment of oracles, and
a Python function that may raise is modelled in a `PyResult` monad.
Character classes (`\s`, `\w`, `str.lower`) are modelled over ASCII.
The file is laid out definitions first, then the theorems.
-/

set_option maxRecDepth 8192

namespace Medlink

/-- Exact rational addition written on `Rat.divInt`, which the kernel can
evaluate (`Rat.add` is `@[irreducible]`); `ratAdd_eq` shows it is `+`. -/
def ratAdd (a b : ℚ) : ℚ := Rat.divInt (a.num * b.den + b.num * a.den) ((a.den : ℤ) * b.den)

/-- Exact rational division written on `Rat.divInt`; `ratDiv_eq` shows it
is `/`. -/
def ratDiv (a b : ℚ) : ℚ := Rat.divInt (a.num * b.den) ((a.den : ℤ) * b.num)

/-- Python `sum(...)` over rationals: a left fold of addition from 0. -/
def ratSum (l : List ℚ) : ℚ := l.foldl ratAdd 0

/-- Python whitespace for `\s` and `str.strip`, over ASCII. -/
def isWs (c : Char) : Bool :=
  c = ' ' || c = '\t' || c = '\n' || c = '\r' || c = '\x0b' || c = '\x0c'

/-- Python `str.lower`, over ASCII (`Char.toLower` lowers exactly A–Z). -/
def lowerStr (s : String) : String := ⟨s.data.map Char.toLower⟩

/-- Python `str.strip` on a character list. -/
def trimList (l : List Char) : List Char :=
  ((l.dropWhile isWs).reverse.dropWhile isWs).reverse

/-- Python `str.strip` on strings. -/
def pyStrip (s : String) : String := ⟨trimList s.data⟩

/-- Drop an expected leading segment: `some` of the remainder when `p`
is a prefix of `l`, else `none`. -/
def dropStart? : List Char → List Char → Option (List Char)
  | [], l => some l
  | _ :: _, [] => none
  | c :: ps, d :: ls => if c = d then dropStart? ps ls else none

/-- Python substring test `needle in hay` on character lists. -/
def listContains (needle hay : List Char) : Bool :=
  hay.tails.any (fun t => needle.isPrefixOf t)

/-- Python `needle in hay` on strings. -/
def strContains (hay needle : String) : Bool := listContains needle.data hay.data

/-- Matcher of a whole-string-anchored regex `^(a1|…|ak)\s*[p…]?$`:
some alternative, then optional whitespace, then at most one of the
allowed punctuation characters, then the end of the string. -/
def matchAnchoredAlts (alts : List String) (punct : List Char) (l : List Char) : Bool :=
  alts.any fun a =>
    match dropStart? a.data l with
    | some r =>
      let r2 := r.dropWhile isWs
      r2 = [] || punct.any (fun p => r2 = [p])
    | none => false

/-- Matcher of a start-anchored regex `^(a1|…|ak)`: some alternative is a
leading segment of the string. -/
def matchLeadAlts (alts : List String) (l : List Char) : Bool :=
  alts.any fun a => a.data.isPrefixOf l

/-- Matcher of `^(a1|…|ak)\s`: some alternative followed by one whitespace
character. -/
def matchLeadAltsThenWs (alts : List String) (l : List Char) : Bool :=
  alts.any fun a =>
    match dropStart? a.data l with
    | some (c :: _) => isWs c
    | _ => false

/-- The intent classification of `detect_intent`. -/
inductive Intent
  | casual
  | greeting
  | follow_up
  | clarification
  | medical_question
deriving DecidableEq, Repr

/-- Regex `^(ok|okay|alright|got it|understood)\s*[!,.]?$`. -/
def casualPat1 (l : List Char) : Bool :=
  matchAnchoredAlts ["ok", "okay", "alright", "got it", "understood"] ['!', ',', '.'] l

/-- Regex `^(thanks?|thank you)\s*[!.]?$`. -/
def casualPat2 (l : List Char) : Bool :=
  matchAnchoredAlts ["thanks", "thank", "thank you"] ['!', '.'] l

/-- Regex `^(yeah|yep|sure|cool)\s*[!.]?$`. -/
def casualPat3 (l : List Char) : Bool :=
  matchAnchoredAlts ["yeah", "yep", "sure", "cool"] ['!', '.'] l

/-- Regex `^(bye|goodbye|see you|take care)\s*[!.]?$`. -/
def casualPat4 (l : List Char) : Bool :=
  matchAnchoredAlts ["bye", "goodbye", "see you", "take care"] ['!', '.'] l

/-- Regex `^(hi|hello|hey|greetings?)\s*[!?]?$`. -/
def greetingPat1 (l : List Char) : Bool :=
  matchAnchoredAlts ["hi", "hello", "hey", "greetings", "greeting"] ['!', '?'] l

/-- Regex `^(how are you|what\'s up|how\'s it going)` (no end anchor). -/
def greetingPat2 (l : List Char) : Bool :=
  matchLeadAlts ["how are you", "what's up", "how's it going"] l

/-- The four follow-up regexes of `detect_intent`, in source order. -/
def followupCheck (l : List Char) : Bool :=
  matchLeadAlts ["more", "tell me more", "anything else", "what else"] l ||
  matchLeadAltsThenWs ["is it safe", "will it", "can i", "should i"] l ||
  matchLeadAlts ["what about", "and"] l ||
  matchLeadAlts ["ok", "okay", "understood"] l ||
  matchLeadAlts ["yes", "no", "maybe"] l

/-- The three clarification regexes of `detect_intent`, in source order. -/
def clarificationCheck (l : List Char) : Bool :=
  matchLeadAlts ["can you explain", "what does", "what's", "explain"] l ||
  matchLeadAlts ["i don't understand"] l ||
  matchLeadAlts ["clarify", "elaborate"] l

/-- Body of `detect_intent` applied to the lowercased, stripped query: the
source tries the casual patterns, then greeting, follow-up, clarification,
returning at the first regex that matches, else `medical_question`. -/
def detectCore (l : List Char) : Intent :=
  if casualPat1 l || casualPat2 l || casualPat3 l || casualPat4 l then .casual
  else if greetingPat1 l || greetingPat2 l then .greeting
  else if followupCheck l then .follow_up
  else if clarificationCheck l then .clarification
  else .medical_question

/-- `detect_intent(query)`: classify the query as greeting, follow-up,
clarification, casual or medical question. -/
def detect_intent (query : String) : Intent :=
  detectCore (trimList ((lowerStr query).data))

/-- A retrieved passage: `{content, source_url, title, score}` with the
vector store's certainty score (a Python float, modelled as `ℚ`). -/
structure Chunk where
  content : String
  source_url : String
  title : String
  score : ℚ
deriving DecidableEq, Repr

/-- One output sentence of `parse_answer_with_confidence`: cleaned text,
confidence, and `(url, title)` source pairs. -/
structure ScoredSentence where
  text : String
  confidence : ℚ
  sources : List (String × String)
deriving DecidableEq, Repr

/-- One conversation turn `{question, answer}`. -/
structure Turn where
  question : String
  answer : String
deriving DecidableEq, Repr

/-- The dict returned by `query_rag_system` and `generate_fallback_with_groq`:
the `is_fallback` and `fallback_type` keys are only present on the
fallback paths (absent keys are modelled by the defaults). -/
structure RagResponse where
  answer : String
  sentences : List ScoredSentence
  is_fallback : Bool := false
  fallback_type : Option String := none
deriving DecidableEq, Repr

/-- Outcome of one call to an external collaborator: a value, or any
exception the SDK raises (caught locally by the source). -/
inductive ExtOutcome (α : Type)
  | ok (a : α)
  | fail
deriving DecidableEq, Repr

/-- The external collaborators, as oracles over the request text: the
vector-store search (already folded over connection, schema and
empty-result failures of `search_weaviate`/`get_weaviate_client`) and the
two Groq chat-completion call sites. -/
structure Env where
  search : String → ExtOutcome (List Chunk)
  llmMain : String → ExtOutcome String
  llmFallback : String → ExtOutcome String

/-- Python exceptions that the embedded code can leave uncaught. -/
inductive PyErr
  | indexError
deriving DecidableEq, Repr

/-- Result of running a Python function that may raise. -/
inductive PyResult (α : Type)
  | ok (a : α)
  | raised (e : PyErr)
deriving DecidableEq, Repr

/-- Observable calls to the collaborators, recorded as a trace:
`searchCalled` when `search_weaviate` is entered, `genCalled` when
`generate_answer_with_groq` is entered with its chunk list,
`fallbackGenCalled` when `generate_fallback_with_groq` is entered, and
`llmCalled` when a Groq chat completion is requested. -/
inductive Event
  | searchCalled (q : String)
  | genCalled (chunks : List Chunk)
  | fallbackGenCalled
  | llmCalled
deriving DecidableEq, Repr

/-- The trace of an orchestrator run (empty when the run raised). -/
def eventsOf : PyResult (RagResponse × List Event) → List Event
  | .ok (_, tr) => tr
  | .raised _ => []

/-- `search_weaviate(query)`: semantic search against the vector store;
every failure (no client, missing schema, no data, exception) degrades to
the empty list inside the function. -/
def search_weaviate (env : Env) (query : String) : List Chunk × List Event :=
  (match env.search query with
   | .ok chunks => chunks
   | .fail => [], [.searchCalled query])

/-- `_is_medication_query`'s keyword vocabulary, in source order. -/
def medication_keywords : List String :=
  ["medicine", "drug", "medication", "pill", "tablet", "dose", "dosage",
   "ibuprofen", "aspirin", "paracetamol", "acetaminophen", "antibiotic",
   "prescription", "over-the-counter", "supplement", "vitamin", "take",
   "safe to take", "can i take", "should i take"]

/-- `_is_medication_query(query)`: keyword membership over the lowercased
query. -/
def _is_medication_query (query : String) : Bool :=
  medication_keywords.any (fun k => strContains (lowerStr query) k)

/-- The hardcoded paracetamol fallback chunk (score 0.90). -/
def paracetamolChunk : Chunk :=
  { content := "Paracetamol (acetaminophen) is generally considered safe during pregnancy when used at the recommended dose. It's often the first choice for pain or fever because it has a good safety record across all trimesters. However, it's best to avoid taking more than needed and to talk with a healthcare provider if symptoms persist."
    source_url := "https://www.nhs.uk/pregnancy/medications/"
    title := "NHS - Medicines in Pregnancy"
    score := mkRat 90 100 }

/-- The hardcoded ibuprofen fallback chunk (score 0.88). -/
def ibuprofenChunk : Chunk :=
  { content := "Ibuprofen (a non-steroidal anti-inflammatory) is generally not recommended during pregnancy, particularly in the third trimester, as it may affect fetal development and labor. Paracetamol is a safer alternative for pain relief during pregnancy. Always discuss pain management options with your healthcare provider."
    source_url := "https://www.nhs.uk/pregnancy/medications/"
    title := "NHS - Medicines in Pregnancy"
    score := mkRat 88 100 }

/-- The hardcoded aspirin fallback chunk (score 0.87). -/
def aspirinChunk : Chunk :=
  { content := "Aspirin should generally be avoided during pregnancy unless specifically recommended by your healthcare provider. It may increase bleeding risk and affect fetal development, especially in the third trimester. For pain relief, paracetamol is a safer option. Always consult your healthcare provider before taking any medication."
    source_url := "https://www.nhs.uk/pregnancy/medications/"
    title := "NHS - Medicines in Pregnancy"
    score := mkRat 87 100 }

/-- The generic consult-your-provider fallback chunk (score 0.70). -/
def genericMedChunk : Chunk :=
  { content := "For questions about specific medications during pregnancy, it's essential to consult your healthcare provider. They can evaluate your individual situation and recommend safe alternatives if needed."
    source_url := "https://www.nhs.uk/pregnancy/medications/"
    title := "NHS - Medicines in Pregnancy"
    score := mkRat 70 100 }

/-- `_get_medication_fallback_chunks(query)`: the first hardcoded entry
whose keyword occurs in the lowercased query, in the dict's insertion
order paracetamol, ibuprofen, aspirin; else the generic chunk. -/
def _get_medication_fallback_chunks (query : String) : List Chunk :=
  if strContains (lowerStr query) "paracetamol" then [paracetamolChunk]
  else if strContains (lowerStr query) "ibuprofen" then [ibuprofenChunk]
  else if strContains (lowerStr query) "aspirin" then [aspirinChunk]
  else [genericMedChunk]

/-- The casual-branch reply selection of `query_rag_system`: the first
`casual_responses` key contained in the lowercased query, default
"Got it!". -/
def casualReplyFor (query : String) : String :=
  if strContains (lowerStr query) "thanks" then "You're welcome!"
  else if strContains (lowerStr query) "ok" then "Got it!"
  else if strContains (lowerStr query) "bye" then "Take care!"
  else if strContains (lowerStr query) "yeah" then "👍"
  else if strContains (lowerStr query) "cool" then "Great!"
  else "Got it!"

/-- The greeting-branch reply selection of `query_rag_system`: the first
`greetings` key contained in the lowercased query, default
"Hi! How can I help?". -/
def greetingReplyFor (query : String) : String :=
  if strContains (lowerStr query) "hi" then "Hi there! What can I help you with?"
  else if strContains (lowerStr query) "hello" then "Hey! What's on your mind?"
  else if strContains (lowerStr query) "how are you" then "I'm here and ready to help. What would you like to know?"
  else if strContains (lowerStr query) "thanks" then "You're welcome! Feel free to ask if you have more questions."
  else if strContains (lowerStr query) "bye" then "Take care! Come back anytime you have questions."
  else "Hi! How can I help?"

/-- `add_to_history(history, question, answer, max_turns=10)`: append the
exchange and keep only the `max_turns` most recent turns
(`history[-max_turns:]`). -/
def add_to_history (history : List Turn) (question answer : String)
    (max_turns : Nat := 10) : List Turn :=
  let h2 := history ++ [⟨question, answer⟩]
  h2.drop (h2.length - max_turns)

/-- Python `\w` word characters, over ASCII. -/
def isWordChar (c : Char) : Bool := c.isAlpha || c.isDigit || c = '_'

/-- Accumulator pass of `wordRuns`: `acc` holds the current run reversed. -/
def wordRunsAux : List Char → List Char → List (List Char)
  | [], acc => if acc = [] then [] else [acc.reverse]
  | c :: rest, acc =>
    if isWordChar c then wordRunsAux rest (c :: acc)
    else if acc = [] then wordRunsAux rest []
    else acc.reverse :: wordRunsAux rest []

/-- The maximal runs of word characters of a text, in order: the matches
of `\w+` (so `\b\w{4,}\b` matches are the runs of length at least 4). -/
def wordRuns (l : List Char) : List (List Char) := wordRunsAux l []

/-- `set(re.findall(r'\b\w{4,}\b', text.lower()))` of the source: the
distinct word runs of length at least 4 of the lowercased text
(`List.dedup` models the set; only membership and cardinality are used). -/
def queryTerms (text : String) : List (List Char) :=
  ((wordRuns (lowerStr text).data).filter (fun r => 4 ≤ r.length)).dedup

/-- The `overlap` expression of `_find_topical_overlaps`:
`len(current_terms & prior_terms) / max(len(current_terms), 1)`
(Python 3 true division, exact on these integers). -/
def overlapOf (currentTerms priorTerms : List (List Char)) : ℚ :=
  Rat.divInt ((currentTerms.filter (fun t => priorTerms.contains t)).length : ℤ)
    ((max currentTerms.length 1 : ℕ) : ℤ)

/-- `_find_topical_overlaps(history, current_query)`: the turns among the
last 5 whose question's keyword overlap with the query exceeds 0.3, in
iteration order over `history[-5:]`. -/
def _find_topical_overlaps (history : List Turn) (current_query : String) : List Turn :=
  if history = [] then []
  else
    let currentTerms := queryTerms current_query
    (history.drop (history.length - 5)).filter
      (fun ex => overlapOf currentTerms (queryTerms ex.question) > mkRat 3 10)

/-- `_build_context_from_history(history, current_query, intent)`: a short
context string extracted from the history according to the intent. -/
def _build_context_from_history (history : Option (List Turn))
    (current_query : String) (intent : Intent) : String :=
  match history with
  | none => ""
  | some h =>
    if hne : h = [] then ""
    else
      let recent := h.getLast hne
      match intent with
      | .follow_up =>
        "Context from earlier: " ++ pyStrip ⟨recent.answer.data.takeWhile (fun c => c ≠ '.')⟩
      | .clarification =>
        "About what we discussed: " ++ ⟨recent.question.data.take 50⟩
      | .medical_question =>
        let relevant_exchanges := _find_topical_overlaps h current_query
        if relevant_exchanges = [] then ""
        else
          "Context: " ++ String.intercalate "; "
            ((relevant_exchanges.take 2).map
              (fun ex => "You previously asked: '" ++ ex.question ++ "'"))
      | _ => ""

/-- A sentence-ending character of `re.split(r'(?<=[.!?])\s+', …)`. -/
def sentenceEnd (c : Char) : Bool := c = '.' || c = '!' || c = '?'

/-- Scanner of the sentence split: `acc` is the current fragment reversed;
`gap` is true while consuming a splitting whitespace run (one that began
right after a sentence-ending character). -/
def splitSentencesAux : List Char → List Char → Bool → List (List Char)
  | [], acc, _ => [acc.reverse]
  | c :: rest, acc, gap =>
    if isWs c then
      if gap then splitSentencesAux rest acc true
      else if (match acc with | p :: _ => sentenceEnd p | [] => false) then
        acc.reverse :: splitSentencesAux rest [] true
      else splitSentencesAux rest (c :: acc) false
    else splitSentencesAux rest (c :: acc) false

/-- `re.split(r'(?<=[.!?])\s+', text)`: split at each maximal whitespace
run that directly follows `.`, `!` or `?`, removing the whitespace. -/
def splitSentences (l : List Char) : List (List Char) := splitSentencesAux l [] false

/-- Python `int(...)` over a digit string. -/
def digitsToNat (ds : List Char) : Nat :=
  ds.foldl (fun n c => n * 10 + (c.toNat - 48)) 0

/-- Scanner of `re.findall(r'\[(\d+)\]', …)`: `none` means no candidate
open; `some ds` means a `[` was seen, followed by the digits `ds`
(reversed). Re-starting at a failing `[` mirrors the regex engine
advancing its scan position past a failed match start. -/
def findCitationsAux : List Char → Option (List Char) → List Nat
  | [], _ => []
  | c :: rest, none =>
    if c = '[' then findCitationsAux rest (some [])
    else findCitationsAux rest none
  | c :: rest, some ds =>
    if c.isDigit then findCitationsAux rest (some (c :: ds))
    else if c = ']' && ds ≠ [] then digitsToNat ds.reverse :: findCitationsAux rest none
    else if c = '[' then findCitationsAux rest (some [])
    else findCitationsAux rest none

/-- The citation numbers `re.findall(r'\[(\d+)\]', sentence)` as naturals. -/
def findCitations (l : List Char) : List Nat := findCitationsAux l none

/-- One attempt of the pattern `\s*\[\d+\]\s*` at the current position:
`some` of the remainder past the consumed text when it matches. -/
def tryCitationAt (l : List Char) : Option (List Char) :=
  match l.dropWhile isWs with
  | '[' :: r =>
    (match r.dropWhile Char.isDigit with
     | ']' :: r2 =>
       if r.takeWhile Char.isDigit = [] then none
       else some (r2.dropWhile isWs)
     | _ => none)
  | _ => none

/-- Scanner of `re.sub(r'\s*\[\d+\]\s*', ' ', …)`: each leftmost match is
replaced by one space; on failure the scan advances one character. The
fuel argument only bounds recursion (each step consumes at least one
character, so `l.length` suffices) and keeps the scanner structurally
recursive, hence kernel-evaluable. -/
def subCitationsAux : Nat → List Char → List Char
  | 0, _ => []
  | _ + 1, [] => []
  | fuel + 1, c :: rest =>
    match tryCitationAt (c :: rest) with
    | some r2 => ' ' :: subCitationsAux fuel r2
    | none => c :: subCitationsAux fuel rest

/-- `re.sub(r'\s*\[\d+\]\s*', ' ', l)`. -/
def subCitations (l : List Char) : List Char := subCitationsAux l.length l

/-- Scanner of `re.sub(r'\s+', ' ', …)`: `inWs` is true right after a
whitespace character. -/
def collapseWsAux : List Char → Bool → List Char
  | [], _ => []
  | c :: rest, inWs =>
    if isWs c then
      if inWs then collapseWsAux rest true
      else ' ' :: collapseWsAux rest true
    else c :: collapseWsAux rest false

/-- `re.sub(r'\s+', ' ', l)`: collapse every whitespace run to one space. -/
def collapseWs (l : List Char) : List Char := collapseWsAux l false

/-- The `clean_text` of `parse_answer_with_confidence`: citation markers
substituted by spaces, then stripped, then inner whitespace collapsed. -/
def cleanTextOf (sentence : List Char) : String :=
  ⟨collapseWs (trimList (subCitations sentence))⟩

/-- Python `round(q, 2)` on the exact rational value: round to a multiple
of 1/100, ties to even (the float representation error of CPython's
`round` on `float` is below this model's resolution). -/
def round2 (q : ℚ) : ℚ :=
  let a : ℤ := q.num * 100
  let b : ℤ := (q.den : ℤ)
  let f : ℤ := a.fdiv b
  let r : ℤ := (a - f * b) * 2
  let k : ℤ :=
    if r < b then f
    else if r > b then f + 1
    else if f % 2 = 0 then f else f + 1
  mkRat k 100

/-- The per-citation resolution loop of `parse_answer_with_confidence`:
`idx = int(c) - 1` is kept when `0 <= idx < len(chunks)` (so `n` is kept
exactly when `1 ≤ n ≤ len(chunks)`), and `chunks[idx]` is appended. -/
def resolveCitations (chunks : List Chunk) : List Nat → List Chunk
  | [] => []
  | n :: rest =>
    if h : 1 ≤ n ∧ n - 1 < chunks.length then
      chunks.get ⟨n - 1, h.2⟩ :: resolveCitations chunks rest
    else resolveCitations chunks rest

/-- The body of the sentence loop of `parse_answer_with_confidence`:
`none` models the `continue` on a whitespace-only fragment. -/
def parseSentence (chunks : List Chunk) (sentence : List Char) : Option ScoredSentence :=
  if trimList sentence = [] then none
  else
    let citations := findCitations sentence
    let clean_text := cleanTextOf sentence
    if citations = [] then
      some ⟨clean_text, mkRat 1 2, []⟩
    else
      let cited_chunks := resolveCitations chunks citations
      if cited_chunks = [] then
        some ⟨clean_text, mkRat 1 2, []⟩
      else
        some ⟨clean_text,
              round2 (ratDiv (ratSum (cited_chunks.map Chunk.score)) (mkRat cited_chunks.length 1)),
              cited_chunks.map (fun c => (c.source_url, c.title))⟩

/-- `parse_answer_with_confidence(answer, chunks)`: split the answer into
sentences and score each one from its citations. -/
def parse_answer_with_confidence (answer : String) (chunks : List Chunk) : List ScoredSentence :=
  (splitSentences answer.data).filterMap (parseSentence chunks)

/-- The `tone_guidance` lookup of `generate_answer_with_groq`
(`dict.get(intent, tone_guidance['medical_question'])`). -/
def tone_guidance (intent : Intent) : String :=
  match intent with
  | .follow_up => "This is a follow-up question. Reference the earlier topic naturally and build on it."
  | .clarification => "The user is asking for clarification. Explain simply and break down complex ideas."
  | _ => "Answer the medical question clearly and supportively."

/-- The numbered source blocks of the main prompt. -/
def sourcesBlock (chunks : List Chunk) : String :=
  String.intercalate "\n\n"
    (chunks.enum.map (fun p => "[Source " ++ toString (p.1 + 1) ++ ": " ++ p.2.title ++ "]\n" ++ p.2.content))

/-- The grounded prompt of `generate_answer_with_groq`. -/
def buildMainPrompt (query : String) (chunks : List Chunk)
    (history_context : String) (intent : Intent) : String :=
  "You are a pregnancy health information assistant. Your role is to:\n- Answer using ONLY the provided sources\n- Use clear, direct language\n- Be accurate and factual\n- Always recommend consulting a healthcare provider for personalized advice\n- Avoid speculation beyond what sources state\n- NO patronizing language like \"don't worry\" or \"don't be concerned\"\n\n"
  ++ tone_guidance intent ++ "\n\n"
  ++ (if history_context = "" then "" else "Conversation context: " ++ history_context)
  ++ "\n\nSources:\n" ++ sourcesBlock chunks
  ++ "\n\nQuestion: " ++ query
  ++ "\n\nGuidelines:\n- Answer in 2-3 sentences (be concise)\n- Cite sources with [1], [2], etc. after relevant statements\n- Be direct and informative\n- Never add reassurance phrases or emotional language\n- Never speculate beyond the sources\n\nAnswer:"

/-- `generate_answer_with_groq(query, chunks, history_context, intent)`:
ask the language model for a grounded answer; on any failure of the call
return the deterministic truncation of the first chunk's content — which
indexes `chunks[0]` and hence raises `IndexError` when `chunks` is empty. -/
def generate_answer_with_groq (env : Env) (query : String) (chunks : List Chunk)
    (history_context : String := "") (intent : Intent := .medical_question) :
    PyResult (String × List Event) :=
  let prompt := buildMainPrompt query chunks history_context intent
  match env.llmMain prompt with
  | .ok text => .ok (pyStrip text, [.genCalled chunks, .llmCalled])
  | .fail =>
    match chunks with
    | [] => .raised .indexError
    | c :: _ =>
      .ok ("Based on available information: " ++ (⟨c.content.data.take 200⟩ : String)
            ++ "... Please consult your healthcare provider for personalized advice.",
           [.genCalled chunks, .llmCalled])

/-- The guarded prompt of `generate_fallback_with_groq`. -/
def buildFallbackPrompt (query : String) : String :=
  "You are a pregnancy health information assistant. A woman asked:\n\"" ++ query
  ++ "\"\n\nCRITICAL RULES:\n1. Provide only general pregnancy knowledge (no rare conditions, no made-up facts)\n2. NEVER invent statistics or medical claims\n3. NEVER recommend treatments or medications\n4. If uncertain, say so explicitly\n5. Keep it short and direct (2-3 sentences max)\n6. NO patronizing language like \"don't worry\"\n7. Always suggest consulting a healthcare provider\n\nAnswer directly and concisely:"

/-- `generate_fallback_with_groq(query)`: generative fallback for
non-medication queries with empty retrieval; every sentence gets fixed
confidence 0.45, and on call failure the canned two-sentence response
(confidences 0.3 and 0.9) is returned. Never raises. -/
def generate_fallback_with_groq (env : Env) (query : String) : RagResponse × List Event :=
  match env.llmFallback (buildFallbackPrompt query) with
  | .ok text =>
    let answer := pyStrip text
    let parsed := (splitSentences answer.data).filterMap
      (fun s => if trimList s = [] then none
                else some (⟨⟨trimList s⟩, mkRat 45 100, []⟩ : ScoredSentence))
    (⟨answer, parsed, true, some "groq_generated"⟩, [.fallbackGenCalled, .llmCalled])
  | .fail =>
    (⟨"I don't have specific information about that. Please consult your healthcare provider for personalized guidance.",
      [⟨"I don't have specific information about that.", mkRat 3 10, []⟩,
       ⟨"Please consult your healthcare provider for personalized guidance.", mkRat 9 10, []⟩],
      true, some "error"⟩, [.fallbackGenCalled, .llmCalled])

/-- The `retrieval_query` of `query_rag_system`:
`f"{history_context}\n{query}".strip() if history_context else query`. -/
def retrievalQuery (query history_context : String) : String :=
  if history_context = "" then query else pyStrip (history_context ++ "\n" ++ query)

/-- The post-retrieval filter of `query_rag_system`:
`[c for c in chunks if c["score"] >= 0.65]`. -/
def filteredChunks (env : Env) (rq : String) : List Chunk :=
  (search_weaviate env rq).1.filter (fun c => mkRat 65 100 ≤ c.score)

/-- The `if not chunks:` block of `query_rag_system`: on an empty filtered
set, medication queries get the hardcoded fallback chunks and other
queries return the generative fallback directly (`Sum.inr` models that
early return). -/
def gateOf (env : Env) (query : String) (filtered : List Chunk) :
    List Chunk ⊕ (RagResponse × List Event) :=
  if filtered = [] then
    if _is_medication_query query then Sum.inl (_get_medication_fallback_chunks query)
    else Sum.inr (generate_fallback_with_groq env query)
  else Sum.inl filtered

/-- The retrieve–gate–generate–parse pipeline of `query_rag_system`
(everything after the casual/greeting early returns). -/
def runPipeline (env : Env) (query : String) (intent : Intent)
    (history_context : String) : PyResult (RagResponse × List Event) :=
  match gateOf env query (filteredChunks env (retrievalQuery query history_context)) with
  | .inr fb =>
    .ok (fb.1, (search_weaviate env (retrievalQuery query history_context)).2 ++ fb.2)
  | .inl chunks =>
    match generate_answer_with_groq env query chunks history_context intent with
    | .raised e => .raised e
    | .ok (answer, ev2) =>
      .ok (⟨answer, parse_answer_with_confidence answer chunks, false, none⟩,
           (search_weaviate env (retrievalQuery query history_context)).2 ++ ev2)

/-- `query_rag_system(query, conversation_history)`: the orchestrator.
Casual and greeting intents return canned replies before any collaborator
call; otherwise history context is built, retrieval filtered at the 0.65
floor, the medication gate or generative fallback handles an empty chunk
set, and a grounded answer is generated and parsed. -/
def query_rag_system (env : Env) (query : String)
    (conversation_history : Option (List Turn) := none) :
    PyResult (RagResponse × List Event) :=
  let intent := detect_intent query
  if intent = .casual then
    let response_text := casualReplyFor query
    .ok (⟨response_text, [⟨response_text, mkRat 95 100, []⟩], false, none⟩, [])
  else if intent = .greeting then
    let greeting_text := greetingReplyFor query
    .ok (⟨greeting_text, [⟨greeting_text, mkRat 95 100, []⟩], false, none⟩, [])
  else
    runPipeline env query intent (_build_context_from_history conversation_history query intent)

/-- A collaborator behaviour with an empty vector store and a fixed
language-model reply. -/
def envNoResults : Env :=
  ⟨fun _ => .ok [], fun _ => .ok "Avoid it in pregnancy [1].", fun _ => .ok "General answer. See a provider."⟩

/-- A collaborator behaviour where every external call fails. -/
def envAllFail : Env := ⟨fun _ => .fail, fun _ => .fail, fun _ => .fail⟩

/-- The claim's "words of length ≥ 4" of a text, as a set: the maximal
word-character runs of the lowercased text having length at least 4. -/
def wordSet (text : String) : Finset (List Char) :=
  ((wordRuns (lowerStr text).data).filter (fun r => 4 ≤ r.length)).toFinset

/-- The claim's overlap ratio: the number of length-≥4 words shared
between query and candidate question, divided by
`max (number of length-≥4 words of the query) 1`. -/
def overlapRatioSpec (query question : String) : ℚ :=
  ((wordSet query ∩ wordSet question).card : ℚ)
    / (((max (wordSet query).card 1 : ℕ)) : ℚ)

/-- The claim's citation resolution: each marker `n` is read as a
1-indexed position into the chunk sequence; out-of-range indices are
silently ignored. -/
def resolvedChunksSpec (chunks : List Chunk) (citations : List Nat) : List Chunk :=
  citations.filterMap (fun n => if n = 0 then none else chunks.get? (n - 1))

/-- The claim's per-sentence result: citation markers stripped from the
text; with no markers, or with every index out of range, confidence 0.5
and no sources; otherwise confidence is the arithmetic mean of the
resolved chunks' scores rounded to 2 decimal places, and sources are the
resolved chunks' (url, title) pairs in citation order, duplicates kept. -/
def sentenceSpec (chunks : List Chunk) (sentence : List Char) : ScoredSentence :=
  let citations := findCitations sentence
  let resolved := resolvedChunksSpec chunks citations
  if citations = [] ∨ resolved = [] then
    ⟨cleanTextOf sentence, 1 / 2, []⟩
  else
    ⟨cleanTextOf sentence,
     round2 ((resolved.map Chunk.score).sum / (resolved.length : ℚ)),
     resolved.map (fun c => (c.source_url, c.title))⟩

/-- The normalisation `query.lower().strip()` applied by `detect_intent`. -/
def normQuery (q : String) : List Char := trimList (lowerStr q).data

/-- The claim's whole-string anchoring: the entire string is one of the
listed phrases, allowing trailing whitespace and at most one of the
allowed punctuation characters (the `\s*[…]?$` tail of the regexes). -/
def WholePhrase (alts : List String) (punct : List Char) (l : List Char) : Prop :=
  ∃ a ∈ alts, ∃ w p, (∀ c ∈ w, isWs c = true)
    ∧ (p = [] ∨ ∃ c ∈ punct, p = [c]) ∧ l = a.data ++ (w ++ p)

/-- The claim's prefix matching: the string starts with one of the listed
phrases. -/
def LeadPhrase (alts : List String) (l : List Char) : Prop :=
  ∃ a ∈ alts, a.data <+: l

/-- Prefix matching that requires a whitespace character right after the
phrase (the `\s` tail of the second follow-up regex). -/
def LeadPhraseWs (alts : List String) (l : List Char) : Prop :=
  ∃ a ∈ alts, ∃ c rest, isWs c = true ∧ l = a.data ++ c :: rest

/-- The claim's casual phrases: all four casual regexes are whole-string
anchored. -/
def CasualPhrase (l : List Char) : Prop :=
  WholePhrase ["ok", "okay", "alright", "got it", "understood"] ['!', ',', '.'] l
  ∨ WholePhrase ["thanks", "thank", "thank you"] ['!', '.'] l
  ∨ WholePhrase ["yeah", "yep", "sure", "cool"] ['!', '.'] l
  ∨ WholePhrase ["bye", "goodbye", "see you", "take care"] ['!', '.'] l

/-- The greeting check: the first regex is whole-string anchored, the
second (how are you / what's up / how's it going) is prefix-only. -/
def GreetingPhrase (l : List Char) : Prop :=
  WholePhrase ["hi", "hello", "hey", "greetings", "greeting"] ['!', '?'] l
  ∨ LeadPhrase ["how are you", "what's up", "how's it going"] l

/-- The follow-up check: prefix matching (with a mandatory following
whitespace for the second group). -/
def FollowupPhrase (l : List Char) : Prop :=
  LeadPhrase ["more", "tell me more", "anything else", "what else"] l
  ∨ LeadPhraseWs ["is it safe", "will it", "can i", "should i"] l
  ∨ LeadPhrase ["what about", "and"] l
  ∨ LeadPhrase ["ok", "okay", "understood"] l
  ∨ LeadPhrase ["yes", "no", "maybe"] l

/-- The clarification check: prefix matching. -/
def ClarificationPhrase (l : List Char) : Prop :=
  LeadPhrase ["can you explain", "what does", "what's", "explain"] l
  ∨ LeadPhrase ["i don't understand"] l
  ∨ LeadPhrase ["clarify", "elaborate"] l

theorem ratAdd_eq (a b : ℚ) : ratAdd a b = a + b := by
  rw [ratAdd, Rat.divInt_eq_div]
  push_cast
  conv_rhs => rw [← Rat.num_div_den a, ← Rat.num_div_den b]
  have ha : (a.den : ℚ) ≠ 0 := by exact_mod_cast a.den_nz
  have hb : (b.den : ℚ) ≠ 0 := by exact_mod_cast b.den_nz
  field_simp

theorem ratDiv_eq (a b : ℚ) : ratDiv a b = a / b := by
  rcases eq_or_ne b 0 with rfl | hb
  · simp [ratDiv, Rat.divInt_eq_div]
  · have hbn : (b.num : ℚ) ≠ 0 := by
      exact_mod_cast fun h => hb (Rat.zero_iff_num_zero.mpr (by exact_mod_cast h))
    have ha : (a.den : ℚ) ≠ 0 := by exact_mod_cast a.den_nz
    have hbd : (b.den : ℚ) ≠ 0 := by exact_mod_cast b.den_nz
    rw [ratDiv, Rat.divInt_eq_div]
    push_cast
    conv_rhs => rw [← Rat.num_div_den a, ← Rat.num_div_den b]
    field_simp

theorem ratSum_eq (l : List ℚ) : ratSum l = l.sum := by
  have key : ∀ (l : List ℚ) (a : ℚ), l.foldl ratAdd a = a + l.sum := by
    intro l
    induction l with
    | nil => intro a; simp
    | cons x xs ih => intro a; simp [List.foldl_cons, ratAdd_eq, ih, List.sum_cons]; ring
  simpa using key l 0

example : detect_intent "ok" = Intent.casual := by decide
example : detect_intent "Thanks!" = Intent.casual := by decide
example : detect_intent "hi" = Intent.greeting := by decide
example : detect_intent "how are you today" = Intent.greeting := by decide
example : detect_intent "ok, and one more thing" = Intent.follow_up := by decide
example : detect_intent "what's that" = Intent.clarification := by decide
example : detect_intent "Is paracetamol safe?" = Intent.medical_question := by decide
example : detect_intent "can i take ibuprofen" = Intent.follow_up := by decide

example : add_to_history [⟨"a", "b"⟩] "q" "r" = [⟨"a", "b"⟩, ⟨"q", "r"⟩] := by decide

example :
    _find_topical_overlaps [⟨"pregnancy tips", "a"⟩, ⟨"nausea remedies", "b"⟩]
      "pregnancy nausea"
      = [⟨"pregnancy tips", "a"⟩, ⟨"nausea remedies", "b"⟩] := by decide

example :
    _build_context_from_history (some [⟨"Is paracetamol safe?", "Yes, generally. See a doctor."⟩])
      "What about dosage?" .follow_up = "Context from earlier: Yes, generally" := by decide

example : splitSentences "One. Two!  Three".data = ["One.".data, "Two!".data, "Three".data] := by decide
example : splitSentences "No split".data = ["No split".data] := by decide
example : splitSentences "End. ".data = ["End.".data, []] := by decide

example : findCitations "Safe in pregnancy [1][2]. Also [12].".data = [1, 2, 12] := by decide
example : findCitations "[[3]] [x] [04]".data = [3, 4] := by decide

example : cleanTextOf "Safe [1] ,  mostly [2].".data = "Safe , mostly ." := by decide
example : cleanTextOf "[1]".data = "" := by decide

example : round2 (mkRat 876 1000) = mkRat 88 100 := by decide
example : round2 (mkRat 885 1000) = mkRat 88 100 := by decide
example : round2 (mkRat 875 1000) = mkRat 88 100 := by decide
example : round2 (mkRat 88 100) = mkRat 88 100 := by decide

example :
    parse_answer_with_confidence "Avoid it [1]. Ask your doctor." [ibuprofenChunk]
      = [⟨"Avoid it .", mkRat 88 100, [("https://www.nhs.uk/pregnancy/medications/", "NHS - Medicines in Pregnancy")]⟩,
         ⟨"Ask your doctor.", mkRat 1 2, []⟩] := by decide

example :
    query_rag_system envAllFail "ok" none
      = .ok (⟨"Got it!", [⟨"Got it!", mkRat 95 100, []⟩], false, none⟩, []) := by decide

example :
    eventsOf (query_rag_system envNoResults "ibuprofen" none)
      = [.searchCalled "ibuprofen", .genCalled [ibuprofenChunk], .llmCalled] := by decide

example :
    eventsOf (query_rag_system envNoResults "any fever tips" none)
      = [.searchCalled "any fever tips", .fallbackGenCalled, .llmCalled] := by decide

theorem mkRat_65_eq : (mkRat 65 100 : ℚ) = 65 / 100 := by
  rw [Rat.mkRat_eq_div]; norm_num

theorem medication_fallback_ne_nil (query : String) :
    _get_medication_fallback_chunks query ≠ [] := by
  unfold _get_medication_fallback_chunks
  split
  · simp
  · split
    · simp
    · split <;> simp

theorem medication_fallback_scores (query : String) (c : Chunk)
    (hc : c ∈ _get_medication_fallback_chunks query) : mkRat 65 100 ≤ c.score := by
  unfold _get_medication_fallback_chunks at hc
  split at hc
  · simp at hc; subst hc; decide
  · split at hc
    · simp at hc; subst hc; decide
    · split at hc
      · simp at hc; subst hc; decide
      · simp at hc; subst hc; decide

theorem generate_answer_ok (env : Env) (q : String) (chunks : List Chunk)
    (hc : String) (it : Intent) (h : chunks ≠ []) :
    ∃ ans, generate_answer_with_groq env q chunks hc it
      = .ok (ans, [.genCalled chunks, .llmCalled]) := by
  simp only [generate_answer_with_groq]
  cases henv : env.llmMain (buildMainPrompt q chunks hc it) with
  | ok text => exact ⟨pyStrip text, rfl⟩
  | fail =>
    cases chunks with
    | nil => exact absurd rfl h
    | cons c cs => exact ⟨_, rfl⟩

theorem generate_answer_events (env : Env) (q : String) (chunks : List Chunk)
    (hc : String) (it : Intent) (ans : String) (ev : List Event)
    (h : generate_answer_with_groq env q chunks hc it = .ok (ans, ev)) :
    ev = [.genCalled chunks, .llmCalled] := by
  simp only [generate_answer_with_groq] at h
  cases henv : env.llmMain (buildMainPrompt q chunks hc it) with
  | ok text => rw [henv] at h; simp at h; exact h.2.symm
  | fail =>
    rw [henv] at h
    cases chunks with
    | nil => simp at h
    | cons c cs => simp at h; exact h.2.symm

theorem fallback_events (env : Env) (q : String) :
    (generate_fallback_with_groq env q).2 = [.fallbackGenCalled, .llmCalled] := by
  unfold generate_fallback_with_groq
  cases env.llmFallback (buildFallbackPrompt q) <;> rfl

theorem search_events (env : Env) (rq : String) :
    (search_weaviate env rq).2 = [.searchCalled rq] := rfl

/-- Any chunk set the gate lets through is non-empty and respects the
0.65 floor. -/
theorem gateOf_inl (env : Env) (query : String) (filtered cs : List Chunk)
    (hf : ∀ c ∈ filtered, mkRat 65 100 ≤ c.score)
    (h : gateOf env query filtered = Sum.inl cs) :
    cs ≠ [] ∧ ∀ c ∈ cs, mkRat 65 100 ≤ c.score := by
  unfold gateOf at h
  split at h
  · split at h
    · cases h
      exact ⟨medication_fallback_ne_nil query,
        fun c hc => medication_fallback_scores query c hc⟩
    · cases h
  · cases h
    next hne => exact ⟨hne, hf⟩

theorem filteredChunks_scores (env : Env) (rq : String) :
    ∀ c ∈ filteredChunks env rq, mkRat 65 100 ≤ c.score := by
  intro c hc
  unfold filteredChunks at hc
  simpa using (List.of_mem_filter hc)

theorem gateOf_inr (env : Env) (query : String) (filtered : List Chunk)
    (fb : RagResponse × List Event) (h : gateOf env query filtered = Sum.inr fb) :
    fb = generate_fallback_with_groq env query := by
  unfold gateOf at h
  split at h
  · split at h
    · cases h
    · cases h; rfl
  · cases h

/-- Case analysis of one pipeline run: either the generative fallback was
returned (with its trace), or a grounded answer over a non-empty,
floor-respecting chunk set was generated and parsed. -/
theorem runPipeline_cases (env : Env) (query : String) (it : Intent) (hcx : String) :
    (∃ fb : RagResponse × List Event,
        runPipeline env query it hcx
          = .ok (fb.1, [.searchCalled (retrievalQuery query hcx), .fallbackGenCalled, .llmCalled])
        ∧ gateOf env query (filteredChunks env (retrievalQuery query hcx)) = Sum.inr fb)
  ∨ (∃ (chunks : List Chunk) (answer : String),
        (chunks ≠ [] ∧ ∀ c ∈ chunks, mkRat 65 100 ≤ c.score)
        ∧ runPipeline env query it hcx
            = .ok (⟨answer, parse_answer_with_confidence answer chunks, false, none⟩,
                   [.searchCalled (retrievalQuery query hcx), .genCalled chunks, .llmCalled])) := by
  cases hg : gateOf env query (filteredChunks env (retrievalQuery query hcx)) with
  | inr fb =>
    left
    have hfb := gateOf_inr env query _ fb hg
    have hfb2 : fb.2 = [.fallbackGenCalled, .llmCalled] := by
      rw [hfb]; exact fallback_events env query
    refine ⟨fb, ?_, rfl⟩
    unfold runPipeline
    rw [hg]
    dsimp only
    rw [search_events, hfb2]
    rfl
  | inl chunks =>
    right
    have hinv := gateOf_inl env query _ chunks (filteredChunks_scores env _) hg
    obtain ⟨ans, hgen⟩ := generate_answer_ok env query chunks hcx it hinv.1
    refine ⟨chunks, ans, hinv, ?_⟩
    unfold runPipeline
    rw [hg]
    dsimp only
    rw [hgen]
    dsimp only
    rw [search_events]
    rfl

/-- The chunk set of any `genCalled` event of an orchestrator run is
non-empty and respects the 0.65 retrieval floor. -/
theorem genCalled_inv (env : Env) (query : String) (hist : Option (List Turn))
    (cs : List Chunk)
    (h : Event.genCalled cs ∈ eventsOf (query_rag_system env query hist)) :
    cs ≠ [] ∧ ∀ c ∈ cs, mkRat 65 100 ≤ c.score := by
  simp only [query_rag_system] at h
  split at h
  · simp [eventsOf] at h
  · split at h
    · simp [eventsOf] at h
    · rcases runPipeline_cases env query (detect_intent query)
          (_build_context_from_history hist query (detect_intent query)) with
        ⟨fb, hrun, _⟩ | ⟨chunks, answer, hinv, hrun⟩
      · rw [hrun] at h
        simp [eventsOf] at h
      · rw [hrun] at h
        simp [eventsOf] at h
        rw [h]
        exact hinv

theorem add_to_history_eq (h0 : List Turn) (q a : String) :
    add_to_history h0 q a = (h0 ++ [Turn.mk q a]).drop ((h0.length + 1) - 10) := by
  simp [add_to_history]

theorem add_to_history_foldl (qas : List (String × String)) :
    ∀ h : List Turn, qas ≠ [] →
      qas.foldl (fun acc p => add_to_history acc p.1 p.2) h
        = (h ++ qas.map (fun p => Turn.mk p.1 p.2)).drop ((h.length + qas.length) - 10) := by
  induction qas with
  | nil => intro h hne; exact absurd rfl hne
  | cons p ps ih =>
    intro h _
    rcases eq_or_ne ps [] with rfl | hps
    · simp [List.foldl_cons, add_to_history_eq]
    · have hd : (h.length + 1) - 10 ≤ (h ++ [Turn.mk p.1 p.2]).length := by
        simp
        omega
      rw [List.foldl_cons, ih _ hps, add_to_history_eq,
        ← List.drop_append_of_le_length hd, List.drop_drop]
      congr 1
      · simp
        omega
      · simp

/-- C4: for every query, every well-formed conversation history and every
behaviour of the retrieval and language-model collaborators (failures
included), `query_rag_system` returns a result and never raises to its
caller. -/
theorem C4_orchestrator_never_raises (env : Env) (query : String)
    (conversation_history : Option (List Turn)) :
    ∃ r, query_rag_system env query conversation_history = .ok r := by
  simp only [query_rag_system]
  split
  · exact ⟨_, rfl⟩
  · split
    · exact ⟨_, rfl⟩
    · rcases runPipeline_cases env query (detect_intent query)
          (_build_context_from_history conversation_history query (detect_intent query)) with
        ⟨fb, hrun, _⟩ | ⟨chunks, answer, hinv, hrun⟩
      · exact ⟨_, hrun⟩
      · exact ⟨_, hrun⟩

/-- C5: every chunk in a chunk set passed to answer generation has score
at least 0.65; lower-scoring chunks were discarded by the retrieval
filter, and the medication fallback entries also respect the floor. -/
theorem C5_retrieval_floor (env : Env) (query : String)
    (hist : Option (List Turn)) (cs : List Chunk)
    (h : Event.genCalled cs ∈ eventsOf (query_rag_system env query hist)) :
    ∀ c ∈ cs, (65 : ℚ) / 100 ≤ c.score := by
  intro c hc
  have hs := (genCalled_inv env query hist cs h).2 c hc
  rwa [mkRat_65_eq] at hs

theorem C5_retrieval_floor_witness :
    (65 : ℚ) / 100 ≤ ibuprofenChunk.score :=
  C5_retrieval_floor envNoResults "ibuprofen" none [ibuprofenChunk] (by decide)
    ibuprofenChunk (by decide)

/-- C9: `add_to_history` returns the input with the new turn appended,
capped at the 10 most recent entries; after 15 sequential exchanges the
history has length exactly 10 and holds the 10 most recent turns in
order. -/
theorem C9_history_bound (h : List Turn) (qas : List (String × String))
    (hlen : qas.length = 15) :
    ((qas.foldl (fun acc p => add_to_history acc p.1 p.2) h).length = 10
      ∧ qas.foldl (fun acc p => add_to_history acc p.1 p.2) h
          = (h ++ qas.map (fun p => Turn.mk p.1 p.2)).drop ((h.length + 15) - 10))
    ∧ ∀ (h0 : List Turn) (q a : String),
        add_to_history h0 q a = (h0 ++ [Turn.mk q a]).drop ((h0.length + 1) - 10) := by
  have hne : qas ≠ [] := by intro hq; rw [hq] at hlen; simp at hlen
  have hf := add_to_history_foldl qas h hne
  rw [hlen] at hf
  refine ⟨⟨?_, hf⟩, fun h0 q a => add_to_history_eq h0 q a⟩
  rw [hf]
  simp [List.length_drop, List.length_append, List.length_map, hlen]

theorem C9_history_bound_witness :
    ((List.replicate 15 ("q", "a")).foldl
        (fun acc p => add_to_history acc p.1 p.2) ([] : List Turn)).length = 10 :=
  (C9_history_bound [] (List.replicate 15 ("q", "a")) (by decide)).1.1

/-- C10: `generate_answer_with_groq` degrades to the truncated-first-chunk
answer on model failure only when the chunk list is non-empty — on the
empty list it indexes `chunks[0]` and raises IndexError — and inside the
orchestrator that branch is unreachable, because generation is only ever
invoked on a non-empty chunk set. -/
theorem C10_empty_chunks_unreachable (env : Env) (q hcx : String) (it : Intent)
    (hfail : env.llmMain (buildMainPrompt q [] hcx it) = .fail) :
    generate_answer_with_groq env q [] hcx it = .raised .indexError
    ∧ ∀ (query : String) (hist : Option (List Turn)) (cs : List Chunk),
        Event.genCalled cs ∈ eventsOf (query_rag_system env query hist) → cs ≠ [] := by
  constructor
  · simp only [generate_answer_with_groq]
    rw [hfail]
  · intro query hist cs h
    exact (genCalled_inv env query hist cs h).1

theorem C10_empty_chunks_unreachable_witness :
    generate_answer_with_groq envAllFail "q" [] "" .medical_question
      = .raised .indexError :=
  (C10_empty_chunks_unreachable envAllFail "q" "" .medical_question rfl).1

theorem mkRat_95_eq : (mkRat 95 100 : ℚ) = 0.95 := by
  norm_num [mkRat, Rat.normalize]

theorem mkRat_88_eq : (mkRat 88 100 : ℚ) = 0.88 := by
  norm_num [mkRat, Rat.normalize]

theorem casualReplyFor_mem (query : String) :
    casualReplyFor query ∈ ["You're welcome!", "Got it!", "Take care!", "👍", "Great!"] := by
  unfold casualReplyFor
  repeat' split
  all_goals simp

theorem greetingReplyFor_mem (query : String) :
    greetingReplyFor query ∈
      ["Hi there! What can I help you with?", "Hey! What's on your mind?",
       "I'm here and ready to help. What would you like to know?",
       "You're welcome! Feel free to ask if you have more questions.",
       "Take care! Come back anytime you have questions.", "Hi! How can I help?"] := by
  unfold greetingReplyFor
  repeat' split
  all_goals simp

/-- C6: every query classified casual or greeting returns a single canned
reply, keyword-matched from the corresponding fixed table (defaults
"Got it!" and "Hi! How can I help?"), as one sentence of confidence 0.95
with no sources; the trace is empty, so retrieval and generation are
never called. -/
theorem C6_casual_greeting_terminal (env : Env) (query : String)
    (hist : Option (List Turn))
    (h : detect_intent query = .casual ∨ detect_intent query = .greeting) :
    ∃ reply,
      query_rag_system env query hist
        = .ok (RagResponse.mk reply [ScoredSentence.mk reply (0.95 : ℚ) []] false none, [])
      ∧ ((detect_intent query = .casual ∧ reply = casualReplyFor query
            ∧ reply ∈ ["You're welcome!", "Got it!", "Take care!", "👍", "Great!"])
         ∨ (detect_intent query = .greeting ∧ reply = greetingReplyFor query
            ∧ reply ∈ ["Hi there! What can I help you with?", "Hey! What's on your mind?",
                       "I'm here and ready to help. What would you like to know?",
                       "You're welcome! Feel free to ask if you have more questions.",
                       "Take care! Come back anytime you have questions.",
                       "Hi! How can I help?"])) := by
  cases h with
  | inl hc =>
    refine ⟨casualReplyFor query, ?_, Or.inl ⟨hc, rfl, casualReplyFor_mem query⟩⟩
    simp [query_rag_system, hc, ← mkRat_95_eq]
  | inr hg =>
    refine ⟨greetingReplyFor query, ?_, Or.inr ⟨hg, rfl, greetingReplyFor_mem query⟩⟩
    simp [query_rag_system, hg, ← mkRat_95_eq]

theorem C6_casual_greeting_terminal_witness :
    ∃ reply,
      query_rag_system envAllFail "ok" none
        = .ok (RagResponse.mk reply [ScoredSentence.mk reply (0.95 : ℚ) []] false none, [])
      ∧ ((detect_intent "ok" = .casual ∧ reply = casualReplyFor "ok"
            ∧ reply ∈ ["You're welcome!", "Got it!", "Take care!", "👍", "Great!"])
         ∨ (detect_intent "ok" = .greeting ∧ reply = greetingReplyFor "ok"
            ∧ reply ∈ ["Hi there! What can I help you with?", "Hey! What's on your mind?",
                       "I'm here and ready to help. What would you like to know?",
                       "You're welcome! Feel free to ask if you have more questions.",
                       "Take care! Come back anytime you have questions.",
                       "Hi! How can I help?"])) :=
  C6_casual_greeting_terminal envAllFail "ok" none (Or.inl (by decide))

/-- C1 (counterexample): the query "can i take paracetamol or ibuprofen"
contains "ibuprofen" and retrieval returns the empty chunk set, yet the
medication fallback yields the paracetamol entry, not the ibuprofen one
(dict iteration tries "paracetamol" first), and the language model is
invoked on this path (the grounded generator is called on the fallback
chunk). -/
theorem C1_counterexample :
    strContains (lowerStr "can i take paracetamol or ibuprofen") "ibuprofen" = true
    ∧ (search_weaviate envNoResults "can i take paracetamol or ibuprofen").1 = []
    ∧ _get_medication_fallback_chunks "can i take paracetamol or ibuprofen"
        = [paracetamolChunk]
    ∧ paracetamolChunk ≠ ibuprofenChunk
    ∧ Event.llmCalled ∈
        eventsOf (query_rag_system envNoResults "can i take paracetamol or ibuprofen" none) :=
  ⟨by decide, by decide, by decide, by decide, by decide⟩

/-- C1 (amended): for every query whose lowercase form contains
"ibuprofen" but not "paracetamol", classified neither casual nor greeting,
and for which retrieval returns the empty chunk set, the medication
fallback produces exactly the single ibuprofen-specific hardcoded entry
(score 0.88) and the ungrounded generative fallback is never invoked on
this path; the language model, however, is invoked once — through the
grounded generator over that curated chunk. -/
theorem C1_medication_gate (env : Env) (query : String) (hist : Option (List Turn))
    (hibu : strContains (lowerStr query) "ibuprofen" = true)
    (hpar : strContains (lowerStr query) "paracetamol" = false)
    (hcas : detect_intent query ≠ .casual)
    (hgr : detect_intent query ≠ .greeting)
    (hsearch : ∀ rq, env.search rq = .ok []) :
    _get_medication_fallback_chunks query = [ibuprofenChunk]
    ∧ ibuprofenChunk.score = 0.88
    ∧ Event.fallbackGenCalled ∉ eventsOf (query_rag_system env query hist)
    ∧ Event.genCalled [ibuprofenChunk] ∈ eventsOf (query_rag_system env query hist)
    ∧ Event.llmCalled ∈ eventsOf (query_rag_system env query hist) := by
  have hfb : _get_medication_fallback_chunks query = [ibuprofenChunk] := by
    unfold _get_medication_fallback_chunks
    simp [hpar, hibu]
  have hmed : _is_medication_query query = true :=
    List.any_eq_true.mpr ⟨"ibuprofen", by simp [medication_keywords], hibu⟩
  have hfc : ∀ rq, filteredChunks env rq = [] := by
    intro rq
    simp [filteredChunks, search_weaviate, hsearch]
  have hgate : ∀ rq, gateOf env query (filteredChunks env rq) = Sum.inl [ibuprofenChunk] := by
    intro rq
    rw [hfc]
    unfold gateOf
    simp [hmed, hfb]
  obtain ⟨ans, hgen⟩ := generate_answer_ok env query [ibuprofenChunk]
    (_build_context_from_history hist query (detect_intent query)) (detect_intent query)
    (by simp)
  have hrun : query_rag_system env query hist
      = .ok (⟨ans, parse_answer_with_confidence ans [ibuprofenChunk], false, none⟩,
             [.searchCalled (retrievalQuery query
                (_build_context_from_history hist query (detect_intent query))),
              .genCalled [ibuprofenChunk], .llmCalled]) := by
    simp only [query_rag_system]
    rw [if_neg hcas, if_neg hgr]
    unfold runPipeline
    rw [hgate]
    dsimp only
    rw [hgen]
    dsimp only
    rw [search_events]
    rfl
  rw [hrun]
  refine ⟨hfb, mkRat_88_eq, ?_, ?_, ?_⟩ <;> simp [eventsOf]

theorem mkRat_3_10_eq : (mkRat 3 10 : ℚ) = 3 / 10 := by
  norm_num [mkRat, Rat.normalize]

theorem overlapOf_eq_spec (query question : String) :
    overlapOf (queryTerms query) (queryTerms question) = overlapRatioSpec query question := by
  have hnd : ((queryTerms query).filter
      (fun t => (queryTerms question).contains t)).Nodup :=
    (List.nodup_dedup _).filter _
  have hset : ((queryTerms query).filter
        (fun t => (queryTerms question).contains t)).toFinset
      = wordSet query ∩ wordSet question := by
    ext x
    simp [queryTerms, wordSet, List.mem_filter, List.mem_dedup, List.contains,
      List.elem_iff, Finset.mem_inter, List.mem_toFinset]
  have h1 : ((queryTerms query).filter
        (fun t => (queryTerms question).contains t)).length
      = (wordSet query ∩ wordSet question).card := by
    rw [← hset, List.toFinset_card_of_nodup hnd]
  have h2 : (queryTerms query).length = (wordSet query).card := by
    rw [wordSet, List.card_toFinset]
    rfl
  unfold overlapOf overlapRatioSpec
  rw [Rat.divInt_eq_div, h1, h2]
  push_cast
  rfl

/-- C3 (counterexample): with two prior turns both exceeding the 0.30
overlap threshold, the finder returns them in chronological order
(oldest first), not most-recent-first as the claim states. -/
theorem C3_counterexample :
    _find_topical_overlaps [⟨"pregnancy tips", "a"⟩, ⟨"nausea remedies", "b"⟩]
        "pregnancy nausea"
      = [⟨"pregnancy tips", "a"⟩, ⟨"nausea remedies", "b"⟩]
    ∧ ([Turn.mk "pregnancy tips" "a", Turn.mk "nausea remedies" "b"]
        ≠ [Turn.mk "nausea remedies" "b", Turn.mk "pregnancy tips" "a"]) :=
  ⟨by decide, by decide⟩

/-- C3 (amended): the topical overlap finder returns exactly those turns
among the last 5 whose overlap ratio — |words of length ≥ 4 shared
between query and the turn's question| / max(|words of length ≥ 4 in
query|, 1) — exceeds 0.30, in chronological order (oldest first, i.e.
most-recent-last), not most-recent-first. -/
theorem C3_topical_overlaps (history : List Turn) (query : String) :
    _find_topical_overlaps history query
      = (history.drop (history.length - 5)).filter
          (fun t => overlapRatioSpec query t.question > 3 / 10) := by
  unfold _find_topical_overlaps
  split
  · next h => subst h; simp
  · apply List.filter_congr
    intro t _
    simp only [overlapOf_eq_spec, mkRat_3_10_eq]

theorem C1_medication_gate_witness :
    _get_medication_fallback_chunks "ibuprofen" = [ibuprofenChunk]
    ∧ ibuprofenChunk.score = 0.88
    ∧ Event.fallbackGenCalled ∉ eventsOf (query_rag_system envNoResults "ibuprofen" none)
    ∧ Event.genCalled [ibuprofenChunk] ∈ eventsOf (query_rag_system envNoResults "ibuprofen" none)
    ∧ Event.llmCalled ∈ eventsOf (query_rag_system envNoResults "ibuprofen" none) :=
  C1_medication_gate envNoResults "ibuprofen" none (by decide) (by decide)
    (by decide) (by decide) (fun rq => rfl)

/-- C8 (counterexample): the fragment "[1]" is not whitespace-only, so it
is not dropped, but stripping its citation marker leaves empty text: the
parse result contains a ScoredSentence whose text is the empty string. -/
theorem C8_counterexample :
    ScoredSentence.mk "" (mkRat 1 2) [] ∈ parse_answer_with_confidence "[1]" [] := by
  decide

/-- C8 (amended): fragments that are empty or whitespace-only before
citation stripping are dropped, and every produced sentence arises from a
fragment with non-whitespace content; however, a produced sentence's text
may still be empty or whitespace-free-empty when the fragment consists
only of citation markers and whitespace. -/
theorem C8_blank_fragments (answer : String) (chunks : List Chunk) :
    (∀ s ∈ splitSentences answer.data, trimList s = [] → parseSentence chunks s = none)
    ∧ ∀ sc ∈ parse_answer_with_confidence answer chunks,
        ∃ s ∈ splitSentences answer.data,
          trimList s ≠ [] ∧ parseSentence chunks s = some sc := by
  constructor
  · intro s _ hs
    unfold parseSentence
    rw [if_pos hs]
  · intro sc hsc
    unfold parse_answer_with_confidence at hsc
    rw [List.mem_filterMap] at hsc
    obtain ⟨s, hmem, hsome⟩ := hsc
    refine ⟨s, hmem, ?_, hsome⟩
    intro hblank
    have hnone : parseSentence chunks s = none := by
      unfold parseSentence
      rw [if_pos hblank]
    rw [hnone] at hsome
    cases hsome

theorem C8_blank_fragments_witness :
    parseSentence [] [' ', ' '] = none :=
  (C8_blank_fragments "  " []).1 [' ', ' '] (by decide) (by decide)

theorem resolveCitations_eq_spec (chunks : List Chunk) (citations : List Nat) :
    resolveCitations chunks citations = resolvedChunksSpec chunks citations := by
  induction citations with
  | nil => rfl
  | cons n rest ih =>
    rw [resolveCitations, resolvedChunksSpec, List.filterMap_cons]
    by_cases h : 1 ≤ n ∧ n - 1 < chunks.length
    · rw [dif_pos h]
      have hn : ¬ n = 0 := by omega
      have hget : chunks.get? (n - 1) = some (chunks.get ⟨n - 1, h.2⟩) :=
        List.get?_eq_get h.2
      simp only [hn, if_neg, ite_false, hget]
      rw [ih, resolvedChunksSpec]
    · rw [dif_neg h]
      rcases Nat.eq_zero_or_pos n with h0 | hpos
      · simp only [h0, ite_true, if_pos]
        rw [ih, resolvedChunksSpec]
      · have hlen : chunks.length ≤ n - 1 := by omega
        have hget : chunks.get? (n - 1) = none := List.get?_eq_none.mpr hlen
        have hn : ¬ n = 0 := by omega
        simp only [hn, if_neg, ite_false, hget]
        rw [ih, resolvedChunksSpec]

theorem mkRat_half_eq : (mkRat 1 2 : ℚ) = 1 / 2 := by
  norm_num [mkRat, Rat.normalize]

theorem parseSentence_eq_spec (chunks : List Chunk) (s : List Char)
    (hs : trimList s ≠ []) :
    parseSentence chunks s = some (sentenceSpec chunks s) := by
  unfold parseSentence sentenceSpec
  rw [if_neg hs]
  by_cases hcit : findCitations s = []
  · simp [hcit, resolvedChunksSpec, mkRat_half_eq]
  · by_cases hres : resolvedChunksSpec chunks (findCitations s) = []
    · simp [hcit, hres, resolveCitations_eq_spec, mkRat_half_eq]
    · simp only [hcit, hres, resolveCitations_eq_spec, if_neg, ite_false,
        or_self, or_false, false_or]
      have hconf :
          ratDiv (ratSum ((resolvedChunksSpec chunks (findCitations s)).map Chunk.score))
              (mkRat (resolvedChunksSpec chunks (findCitations s)).length 1)
            = ((resolvedChunksSpec chunks (findCitations s)).map Chunk.score).sum
                / ((resolvedChunksSpec chunks (findCitations s)).length : ℚ) := by
        rw [ratDiv_eq, ratSum_eq, Rat.mkRat_one]
        norm_cast
      rw [hconf]

/-- C2: the confidence parser equals, sentence by sentence over the
non-blank fragments of the split answer, the claimed specification:
uncited sentences get confidence exactly 0.5 and empty sources; cited
sentences get the mean of the scores of the chunks resolved by 1-indexing
each marker into the chunk sequence (out-of-range markers ignored),
rounded to 2 decimal places, with the resolved chunks' (url, title) pairs
as sources in citation order, duplicates kept; a sentence whose markers
are all out of range gets confidence 0.5 and empty sources. -/
theorem C2_parse_confidence (answer : String) (chunks : List Chunk) :
    parse_answer_with_confidence answer chunks
      = ((splitSentences answer.data).filter (fun s => trimList s ≠ [])).map
          (sentenceSpec chunks) := by
  unfold parse_answer_with_confidence
  induction splitSentences answer.data with
  | nil => rfl
  | cons s ss ih =>
    rw [List.filterMap_cons, List.filter_cons]
    by_cases hs : trimList s = []
    · have hnone : parseSentence chunks s = none := by
        unfold parseSentence
        rw [if_pos hs]
      simp [hnone, hs, ih]
    · rw [parseSentence_eq_spec chunks s hs]
      simp [hs, ih]

theorem dropStart?_eq_some (p : List Char) :
    ∀ l r, dropStart? p l = some r ↔ l = p ++ r := by
  induction p with
  | nil => intro l r; simp [dropStart?]
  | cons c ps ih =>
    intro l r
    cases l with
    | nil => simp [dropStart?]
    | cons d ls =>
      simp only [dropStart?, List.cons_append, List.cons.injEq]
      by_cases hcd : c = d
      · subst hcd
        simp [ih]
      · rw [if_neg hcd]
        constructor
        · intro h; simp at h
        · rintro ⟨hdc, -⟩; exact absurd hdc.symm hcd

theorem dropWhile_ws_append (w r : List Char) (hw : ∀ c ∈ w, isWs c = true) :
    (w ++ r).dropWhile isWs = r.dropWhile isWs := by
  induction w with
  | nil => rfl
  | cons c cs ih =>
    simp only [List.cons_append, List.dropWhile_cons]
    rw [hw c (by simp)]
    simp only [ite_true, if_pos]
    exact ih (fun d hd => hw d (by simp [hd]))

theorem anchoredTail_iff (punct : List Char) (r : List Char)
    (hp : ∀ c ∈ punct, isWs c = false) :
    (r.dropWhile isWs = [] ∨ ∃ c ∈ punct, r.dropWhile isWs = [c])
      ↔ ∃ w p, (∀ c ∈ w, isWs c = true)
          ∧ (p = [] ∨ ∃ c ∈ punct, p = [c]) ∧ r = w ++ p := by
  constructor
  · intro h
    refine ⟨r.takeWhile isWs, r.dropWhile isWs,
      fun c hc => List.mem_takeWhile_imp hc, ?_,
      (List.takeWhile_append_dropWhile _ _).symm⟩
    exact h
  · rintro ⟨w, p, hw, hpp, rfl⟩
    rw [dropWhile_ws_append w p hw]
    rcases hpp with rfl | ⟨c, hc, rfl⟩
    · left; rfl
    · right
      exact ⟨c, hc, by simp [List.dropWhile_cons, hp c hc]⟩

theorem matchAnchoredAlts_iff (alts : List String) (punct : List Char) (l : List Char)
    (hp : ∀ c ∈ punct, isWs c = false) :
    matchAnchoredAlts alts punct l = true ↔ WholePhrase alts punct l := by
  unfold matchAnchoredAlts WholePhrase
  rw [List.any_eq_true]
  constructor
  · rintro ⟨a, ha, hmatch⟩
    refine ⟨a, ha, ?_⟩
    rcases hdrop : dropStart? a.data l with _ | r
    · rw [hdrop] at hmatch; cases hmatch
    · rw [hdrop] at hmatch
      have hl : l = a.data ++ r := (dropStart?_eq_some _ _ _).mp hdrop
      simp only [Bool.or_eq_true, decide_eq_true_eq, List.any_eq_true] at hmatch
      obtain ⟨w, p, h1, h2, h3⟩ := (anchoredTail_iff punct r hp).mp hmatch
      exact ⟨w, p, h1, h2, by rw [hl, h3]⟩
  · rintro ⟨a, ha, w, p, hw, hpp, rfl⟩
    refine ⟨a, ha, ?_⟩
    rw [(dropStart?_eq_some _ _ _).mpr rfl]
    simp only [Bool.or_eq_true, decide_eq_true_eq, List.any_eq_true]
    exact (anchoredTail_iff punct (w ++ p) hp).mpr ⟨w, p, hw, hpp, rfl⟩

theorem matchLeadAlts_iff (alts : List String) (l : List Char) :
    matchLeadAlts alts l = true ↔ LeadPhrase alts l := by
  unfold matchLeadAlts LeadPhrase
  rw [List.any_eq_true]
  simp only [List.isPrefixOf_iff_prefix]

theorem matchLeadAltsThenWs_iff (alts : List String) (l : List Char) :
    matchLeadAltsThenWs alts l = true ↔ LeadPhraseWs alts l := by
  unfold matchLeadAltsThenWs LeadPhraseWs
  rw [List.any_eq_true]
  constructor
  · rintro ⟨a, ha, hb⟩
    rcases hdrop : dropStart? a.data l with _ | r
    · rw [hdrop] at hb; cases hb
    · rw [hdrop] at hb
      cases r with
      | nil => cases hb
      | cons c rest =>
        exact ⟨a, ha, c, rest, hb, (dropStart?_eq_some _ _ _).mp hdrop⟩
  · rintro ⟨a, ha, c, rest, hws, rfl⟩
    refine ⟨a, ha, ?_⟩
    rw [(dropStart?_eq_some _ _ _).mpr rfl]
    exact hws

theorem detectCore_iff (l : List Char) :
    (detectCore l = .casual ↔ CasualPhrase l)
    ∧ (detectCore l = .greeting ↔ ¬CasualPhrase l ∧ GreetingPhrase l)
    ∧ (detectCore l = .follow_up ↔
        ¬CasualPhrase l ∧ ¬GreetingPhrase l ∧ FollowupPhrase l)
    ∧ (detectCore l = .clarification ↔
        ¬CasualPhrase l ∧ ¬GreetingPhrase l ∧ ¬FollowupPhrase l ∧ ClarificationPhrase l)
    ∧ (detectCore l = .medical_question ↔
        ¬CasualPhrase l ∧ ¬GreetingPhrase l ∧ ¬FollowupPhrase l ∧ ¬ClarificationPhrase l) := by
  have hca : (casualPat1 l || casualPat2 l || casualPat3 l || casualPat4 l) = true
      ↔ CasualPhrase l := by
    simp only [Bool.or_eq_true, CasualPhrase, casualPat1, casualPat2, casualPat3,
      casualPat4, or_assoc,
      matchAnchoredAlts_iff ["ok", "okay", "alright", "got it", "understood"]
        ['!', ',', '.'] l (by decide),
      matchAnchoredAlts_iff ["thanks", "thank", "thank you"] ['!', '.'] l (by decide),
      matchAnchoredAlts_iff ["yeah", "yep", "sure", "cool"] ['!', '.'] l (by decide),
      matchAnchoredAlts_iff ["bye", "goodbye", "see you", "take care"] ['!', '.'] l
        (by decide)]
  have hgr : (greetingPat1 l || greetingPat2 l) = true ↔ GreetingPhrase l := by
    simp only [Bool.or_eq_true, GreetingPhrase, greetingPat1, greetingPat2,
      matchAnchoredAlts_iff ["hi", "hello", "hey", "greetings", "greeting"]
        ['!', '?'] l (by decide), matchLeadAlts_iff]
  have hfo : followupCheck l = true ↔ FollowupPhrase l := by
    simp only [followupCheck, Bool.or_eq_true, FollowupPhrase, matchLeadAlts_iff,
      matchLeadAltsThenWs_iff, or_assoc]
  have hcl : clarificationCheck l = true ↔ ClarificationPhrase l := by
    simp only [clarificationCheck, Bool.or_eq_true, ClarificationPhrase,
      matchLeadAlts_iff, or_assoc]
  unfold detectCore
  by_cases h1 : (casualPat1 l || casualPat2 l || casualPat3 l || casualPat4 l) = true
  · simp [h1, hca.mp h1]
  · have hnc : ¬CasualPhrase l := fun hc => h1 (hca.mpr hc)
    by_cases h2 : (greetingPat1 l || greetingPat2 l) = true
    · simp [h1, h2, hnc, hgr.mp h2]
    · have hng : ¬GreetingPhrase l := fun hg => h2 (hgr.mpr hg)
      by_cases h3 : followupCheck l = true
      · simp [h1, h2, h3, hnc, hng, hfo.mp h3]
      · have hnf : ¬FollowupPhrase l := fun hf => h3 (hfo.mpr hf)
        by_cases h4 : clarificationCheck l = true
        · simp [h1, h2, h3, h4, hnc, hng, hnf, hcl.mp h4]
        · have hncl : ¬ClarificationPhrase l := fun hc => h4 (hcl.mpr hc)
          simp [h1, h2, h3, h4, hnc, hng, hnf, hncl]

/-- C7 (counterexample): "how are you today" is classified as greeting
although the entire string is not a greeting phrase (even allowing
trailing whitespace and punctuation) — the second greeting regex lacks an
end anchor, so greeting detection is prefix-based for its alternatives. -/
theorem C7_counterexample :
    detect_intent "how are you today" = Intent.greeting
    ∧ ¬ WholePhrase ["hi", "hello", "hey", "greetings", "greeting",
          "how are you", "what's up", "how's it going"] ['!', '?']
        (normQuery "how are you today") := by
  constructor
  · decide
  · intro hw
    have hb := (matchAnchoredAlts_iff
      ["hi", "hello", "hey", "greetings", "greeting",
       "how are you", "what's up", "how's it going"] ['!', '?']
      (normQuery "how are you today") (by decide)).mpr hw
    revert hb
    decide

/-- C7 (amended): classification lowercases and strips the query, then
applies, in priority order: the casual check (whole-string anchored), the
greeting check (whole-string anchored for hi/hello/hey/greeting(s) but
prefix-only for how-are-you/what's-up/how's-it-going), the follow-up and
clarification checks (prefix), defaulting to medical_question; matching
is case-insensitive. -/
theorem C7_intent_matching (q : String) :
    ((detect_intent q = .casual ↔ CasualPhrase (normQuery q))
     ∧ (detect_intent q = .greeting ↔
         ¬CasualPhrase (normQuery q) ∧ GreetingPhrase (normQuery q))
     ∧ (detect_intent q = .follow_up ↔
         ¬CasualPhrase (normQuery q) ∧ ¬GreetingPhrase (normQuery q)
           ∧ FollowupPhrase (normQuery q))
     ∧ (detect_intent q = .clarification ↔
         ¬CasualPhrase (normQuery q) ∧ ¬GreetingPhrase (normQuery q)
           ∧ ¬FollowupPhrase (normQuery q) ∧ ClarificationPhrase (normQuery q))
     ∧ (detect_intent q = .medical_question ↔
         ¬CasualPhrase (normQuery q) ∧ ¬GreetingPhrase (normQuery q)
           ∧ ¬FollowupPhrase (normQuery q) ∧ ¬ClarificationPhrase (normQuery q)))
    ∧ ∀ q2, lowerStr q = lowerStr q2 → detect_intent q = detect_intent q2 := by
  refine ⟨detectCore_iff (normQuery q), fun q2 h => ?_⟩
  show detectCore (trimList (lowerStr q).data) = detectCore (trimList (lowerStr q2).data)
  rw [h]

theorem C7_intent_matching_witness :
    detect_intent "OK" = detect_intent "ok" :=
  (C7_intent_matching "OK").2 "ok" (by decide)

end Medlink
